import Mathlib

/-
  Verification development for the digit-collector repository.

  Shallow embedding of:
  - src/services/supabaseService.ts  (uploadDigit, checkConfig)
  - src/components/DigitCanvas.tsx   (initCanvas, clear, getData, startDrawing, stopDrawing)
  - src/App.tsx                      (handleSubmit batch orchestration)
-/

namespace DigitCollector

/-! ## A model of JavaScript runtime values

The error-handling code of `uploadDigit` manipulates untyped JavaScript
values (`err: any`): it reads `.message`, tests `typeof`, coerces with
`String(...)` and serializes with `JSON.stringify(...)`.  We model the
JavaScript values that can flow through those operations. -/

/-- JavaScript values as seen by the error-extraction code: `undefined`,
`null`, booleans, numbers, strings, and plain objects (a list of
key/value fields).  Functions and symbols are out of scope. -/
inductive JSVal where
  | undef : JSVal
  | null : JSVal
  | bool (b : Bool) : JSVal
  | num (n : Int) : JSVal
  | str (s : String) : JSVal
  | obj (fields : List (String × JSVal)) : JSVal

/-- JavaScript truthiness: `undefined`, `null`, `false`, `0` and `""` are
falsy; every other value (including every object) is truthy. -/
def jsTruthy : JSVal → Bool
  | JSVal.undef => false
  | JSVal.null => false
  | JSVal.bool b => b
  | JSVal.num n => n != 0
  | JSVal.str s => s != ""
  | JSVal.obj _ => true

/-- Property read `v.k` on a value already known to be non-nullish
(e.g. guarded by `if (v)`): objects look the field up, primitives have no
own `message` property and yield `undefined`. -/
def member (v : JSVal) (k : String) : JSVal :=
  match v with
  | JSVal.obj fields => ((fields.find? (fun kv => kv.1 == k)).map Prod.snd).getD JSVal.undef
  | _ => JSVal.undef

/-- Property read `v.k` on an arbitrary value: reading a property of
`null` or `undefined` throws a `TypeError`; otherwise it behaves like
`member`. -/
def getMember (v : JSVal) (k : String) : Except String JSVal :=
  match v with
  | JSVal.undef => Except.error "TypeError"
  | JSVal.null => Except.error "TypeError"
  | _ => Except.ok (member v k)

/-- The test `typeof v === 'object'`.  Note that in JavaScript
`typeof null` is `'object'` as well. -/
def typeofIsObject : JSVal → Bool
  | JSVal.obj _ => true
  | JSVal.null => true
  | _ => false

/-- The test `typeof v === 'string'`. -/
def typeofIsString : JSVal → Bool
  | JSVal.str _ => true
  | _ => false

/-- The coercion `String(v)`. -/
def jsToString : JSVal → String
  | JSVal.undef => "undefined"
  | JSVal.null => "null"
  | JSVal.bool b => cond b "true" "false"
  | JSVal.num n => toString n
  | JSVal.str s => s
  | JSVal.obj _ => "[object Object]"

mutual

/-- `JSON.stringify(v)`: returns `undefined` (modelled as `JSVal.undef`)
for `undefined`, and a string for every other value in our model.  String
escaping inside serialized strings is elided (no claim inspects the exact
characters of a serialized payload, only whether it is a non-empty
string). -/
def jsonStringify : JSVal → JSVal
  | JSVal.undef => JSVal.undef
  | JSVal.null => JSVal.str "null"
  | JSVal.bool b => JSVal.str (cond b "true" "false")
  | JSVal.num n => JSVal.str (toString n)
  | JSVal.str s => JSVal.str ("\"" ++ s ++ "\"")
  | JSVal.obj fields => JSVal.str ("\x7b" ++ String.intercalate "," (jsonFields fields) ++ "\x7d")

/-- Serialization of an object's fields; fields whose value serializes to
`undefined` are skipped, as `JSON.stringify` does. -/
def jsonFields : List (String × JSVal) → List String
  | [] => []
  | (k, v) :: rest =>
    match jsonStringify v with
    | JSVal.str s => ("\"" ++ k ++ "\":" ++ s) :: jsonFields rest
    | _ => jsonFields rest

end

/-! ## src/services/supabaseService.ts -/

/-- The three configuration values read from constants.ts
(`SUPABASE_URL`, `SUPABASE_ANON_KEY`, `SUPABASE_BUCKET`), embedded as a
parameter record so that `checkConfig` becomes a function of them. -/
structure Config where
  url : String
  anonKey : String
  bucket : String

/-- The placeholder sentinel `checkConfig` compares `SUPABASE_URL` against. -/
def URL_PLACEHOLDER : String := "https://YOUR-PROJECT-ID.supabase.co"

/-- The placeholder sentinel `checkConfig` compares `SUPABASE_ANON_KEY` against. -/
def KEY_PLACEHOLDER : String := "YOUR-ANON-PUBLIC-KEY"

/-- Modelled from the spec: constants.ts is not under src/, so the bucket
placeholder sentinel value is not visible; the spec requires a
"bucket/container name" configuration value with an "obvious placeholder
sentinel value", which we model as this string. -/
def BUCKET_PLACEHOLDER : String := "YOUR-BUCKET-NAME"

/-- `checkConfig` from supabaseService.ts:
`SUPABASE_URL !== "https://YOUR-PROJECT-ID.supabase.co" && SUPABASE_ANON_KEY !== "YOUR-ANON-PUBLIC-KEY"`.
Note: the bucket name is not consulted. -/
def checkConfig (c : Config) : Bool :=
  (c.url != URL_PLACEHOLDER) && (c.anonKey != KEY_PLACEHOLDER)

/-- Behavior of the awaited Supabase storage `upload` call as observed by
`uploadDigit`: it either resolves with a `{ data, error }` object (whose
`error` field is falsy on success) or rejects with a thrown value. -/
inductive ClientBehavior where
  | returns (error : JSVal) : ClientBehavior
  | throws (err : JSVal) : ClientBehavior

/-- The error value carried by either client behavior: the resolved
`error` field or the thrown value. -/
def respError : ClientBehavior → JSVal
  | ClientBehavior.returns e => e
  | ClientBehavior.throws err => err

/-- The resolved value of `uploadDigit`: `{ success: boolean; error?: string }`.
Since the extracted "message" need not actually be a string at runtime
(e.g. a truthy non-string `message` field is passed through), the error
field holds a `JSVal`. -/
structure ServiceResult where
  success : Bool
  error : Option JSVal

/-- `uploadDigit` from supabaseService.ts.  The digit, the blob payload,
the storage path `digit/timestamp.png` and the `console.error` logging do
not affect the resolved value and are omitted.  An `Except.error` result
models the returned promise rejecting (an exception escaping the catch
block). -/
def uploadDigit (resp : ClientBehavior) : Except String ServiceResult :=
  match resp with
  | ClientBehavior.returns error =>
    if jsTruthy error then
      -- error.message || (typeof error === 'object' ? JSON.stringify(error) : String(error)) || "Unknown Supabase error"
      -- error is truthy here, so the property read cannot throw.
      let m := member error "message"
      let e1 := if jsTruthy m then m
                else if typeofIsObject error then jsonStringify error
                else JSVal.str (jsToString error)
      let errorMessage := if jsTruthy e1 then e1 else JSVal.str "Unknown Supabase error"
      Except.ok { success := false, error := some errorMessage }
    else
      Except.ok { success := true, error := none }
  | ClientBehavior.throws err =>
    -- err.message || (typeof err === 'string' ? err : JSON.stringify(err)) || 'Unknown error'
    -- err may be null or undefined, in which case the property read throws
    -- inside the catch block and the promise rejects.
    match getMember err "message" with
    | Except.error e => Except.error e
    | Except.ok m =>
      let e1 := if jsTruthy m then m
                else if typeofIsString err then err
                else jsonStringify err
      let errorMessage := if jsTruthy e1 then e1 else JSVal.str "Unknown error"
      Except.ok { success := false, error := some errorMessage }

/-! ## src/components/DigitCanvas.tsx -/

/-- One RGBA pixel of canvas image data (each channel 0..255). -/
structure Pixel where
  r : Nat
  g : Nat
  b : Nat
  a : Nat
deriving DecidableEq, Repr

/-- The opaque white background color `#ffffff` the canvas is filled with. -/
def white : Pixel := ⟨255, 255, 255, 255⟩

/-- A raster as a list of pixel rows (row-major, as `getImageData` exposes it). -/
abbrev Raster : Type := List (List Pixel)

/-- A surface-local point, as produced by `getCoords`. -/
structure Point where
  x : Int
  y : Int
deriving DecidableEq, Repr

/-- The per-digit drawing state of one `DigitCanvas` component: the canvas
pixels, the 2d context's current path, and the `isDrawing` / `hasContent`
React state flags.  (The stroke style fields set by `initCanvas` are
constants and are not carried.) -/
structure Slot where
  surface : Raster
  path : List Point
  isDrawing : Bool
  hasContent : Bool
deriving DecidableEq

/-- Modelled from the spec: constants.ts is not under src/.  The drawing
surface is a fixed-size square canvas (`CANVAS_SIZE`); the exact value is
not visible in src/, and no proof below depends on it. -/
def CANVAS_SIZE : Nat := 280

/-- Modelled from the spec: constants.ts is not under src/.  The export
raster is the fixed 28×28 output size ("downscale (to 28x28px)" per the
App copy and the spec). -/
def EXPORT_SIZE : Nat := 28

/-- An `w × h` raster filled with solid white, as `fillRect` with
`fillStyle = '#ffffff'` over the whole canvas produces. -/
def fillWhite (w h : Nat) : Raster :=
  List.replicate h (List.replicate w white)

/-- `initCanvas`: fills the entire canvas with white and resets
`hasContent` to false.  It does not touch `isDrawing` and does not reset
the context's current path (no `beginPath` call). -/
def initCanvas (s : Slot) : Slot :=
  { s with surface := fillWhite CANVAS_SIZE CANVAS_SIZE, hasContent := false }

/-- The `clear` method exposed through the imperative handle: it just
invokes `initCanvas`. -/
def clear (s : Slot) : Slot := initCanvas s

/-- `startDrawing`: sets `isDrawing` and `hasContent`, then `beginPath()`
(discarding the current path) and `moveTo(x, y)`.  There is no guard
against already being mid-stroke. -/
def startDrawing (s : Slot) (p : Point) : Slot :=
  { s with isDrawing := true, hasContent := true, path := [p] }

/-- `stopDrawing`: no-op unless a stroke is active; otherwise leaves the
Drawing state (`closePath` does not change the rendered pixels). -/
def stopDrawing (s : Slot) : Slot :=
  if s.isDrawing then { s with isDrawing := false } else s

/-- The average of a list of pixels, channel-wise with integer division.
An empty list yields white: it models the white pre-fill of the small
canvas showing through where no source pixel maps. -/
def avgPixels (ps : List Pixel) : Pixel :=
  if ps.length = 0 then white
  else
    ⟨(ps.map Pixel.r).sum / ps.length,
     (ps.map Pixel.g).sum / ps.length,
     (ps.map Pixel.b).sum / ps.length,
     (ps.map Pixel.a).sum / ps.length⟩

/-- Modelled from the spec: the platform `drawImage` resample
(`imageSmoothingEnabled`, quality `'high'`) is a browser built-in; the
spec mandates only a deterministic high-quality scale-down, which we
model as block averaging: target pixel (i, j) is the channel-wise average
of the source block of side `srcSize / dstSize` at (i, j). -/
def downscale (srcSize dstSize : Nat) (src : Raster) : Raster :=
  let bs := srcSize / dstSize
  (List.range dstSize).map (fun i =>
    (List.range dstSize).map (fun j =>
      avgPixels ((((src.drop (i * bs)).take bs).map
        (fun row => (row.drop (j * bs)).take bs)).flatten)))

/-- The emptiness scan of `getData`: walk the pixels in order and stop at
the first pixel with any color channel below 240 (`r < 240 || g < 240 || b < 240`);
the alpha channel is not examined. -/
def scanBlank : List Pixel → Bool
  | [] => true
  | p :: rest =>
    if p.r < 240 || p.g < 240 || p.b < 240 then false else scanBlank rest

/-- `getData` from the imperative handle, given the source canvas pixels:
downscale to `EXPORT_SIZE` (over a white pre-fill), scan for emptiness,
and return `{ blob, isEmpty }` — a `none` blob and `isEmpty = true` when
blank, otherwise the PNG of the small raster (the PNG encoding is
modelled as the raster itself).  The early-return branches for a missing
canvas element or context are handled by the caller model. -/
def getData (surface : Raster) : Option Raster × Bool :=
  let small := downscale CANVAS_SIZE EXPORT_SIZE surface
  if scanBlank small.flatten then (none, true) else (some small, false)

/-! ## src/App.tsx -/

/-- The per-digit outcome object produced by `handleSubmit`
(`UploadResult` in types.ts declares `digit`, `success`, `message?`,
`skipped?`).  The spread `{ digit, ...result }` of `uploadDigit`'s result
can also attach an `error` key, which is not part of the declared type;
we carry both optional keys, `none` meaning the key is absent. -/
structure UploadOutcome where
  digit : Nat
  success : Bool
  skipped : Bool
  message : Option JSVal
  error : Option JSVal

/-- The environment one digit's async task runs against: the canvas
handle (`none` models `canvasRefs.current[digit]` being null) holding the
slot's surface pixels, and the Upload Client's behavior for this digit. -/
structure DigitEnv where
  canvas : Option Raster
  client : ClientBehavior

/-- The body of `DIGITS.map(async (digit) => ...)` in `handleSubmit`: the
per-digit task.  Also records (second component) whether the task invoked
the Upload Client (`uploadDigit`); an `Except.error` first component
models the task's promise rejecting. -/
def digitTask (digit : Nat) (env : DigitEnv) : Except String UploadOutcome × Bool :=
  match env.canvas with
  | none =>
    (Except.ok ⟨digit, false, false, some (JSVal.str "Canvas not initialized"), none⟩, false)
  | some surface =>
    let r := getData surface
    if r.2 || r.1.isNone then
      (Except.ok ⟨digit, true, true, none, none⟩, false)
    else
      (Except.map (fun res => ⟨digit, res.success, false, none, res.error⟩)
        (uploadDigit env.client), true)

/-- The `DIGITS` array of App.tsx. -/
def DIGITS : List Nat := [0, 1, 2, 3, 4, 5, 6, 7, 8, 9]

/-- `Promise.all` over an already-settled list: the first rejection (in
list order) rejects the whole batch, otherwise all fulfilled values are
collected positionally. -/
def collectAll {α : Type} : List (Except String α) → Except String (List α)
  | [] => Except.ok []
  | Except.error e :: _ => Except.error e
  | Except.ok a :: rest => Except.map (fun as => a :: as) (collectAll rest)

/-- The visible result of one `handleSubmit` invocation: the single
global configuration error (early return), the single batch-level catch
error, or the list of per-digit outcomes passed to `setResults`. -/
inductive BatchResult where
  | configError (msg : String) : BatchResult
  | batchError (msg : String) : BatchResult
  | ok (outcomes : List UploadOutcome) : BatchResult

/-- `handleSubmit` from App.tsx, as a function of the memoized
`checkConfig()` value and the per-digit environments.  Returns the batch
result together with the list of digits whose task invoked the Upload
Client.  The `setIsUploading` spinner toggles are UI-only and omitted. -/
def handleSubmit (configOK : Bool) (envs : Nat → DigitEnv) : BatchResult × List Nat :=
  if !configOK then
    (BatchResult.configError "Please configure Supabase keys in constants.ts first.", [])
  else
    let tasks := DIGITS.map (fun d => digitTask d (envs d))
    let calls := DIGITS.filter (fun d => (digitTask d (envs d)).2)
    match collectAll (tasks.map Prod.fst) with
    | Except.ok outs => (BatchResult.ok outs, calls)
    | Except.error _ =>
      (BatchResult.batchError "An unexpected error occurred during the batch upload.", calls)

/-- Positional gather of async results, indexed by completion order: the
tasks' results land in a fixed-size slot array at their own index, in
whatever order the tasks complete.  This makes the ordering claim about
`Promise.all` statable: the gathered array is the same for every
completion order. -/
def promiseAll {α : Type} (n : Nat) (order : List Nat) (f : Nat → α) :
    List (Option α) :=
  order.foldl (fun acc d => acc.set d (some (f d))) (List.replicate n none)

/-! ## Helper lemmas -/

/-- The emptiness scan succeeds exactly when no pixel has a color channel
below the 240 threshold. -/
lemma scanBlank_iff (l : List Pixel) :
    scanBlank l = true ↔ ∀ p ∈ l, ¬(p.r < 240 ∨ p.g < 240 ∨ p.b < 240) := by
  induction l with
  | nil => simp [scanBlank]
  | cons p rest ih =>
    by_cases h : p.r < 240 ∨ p.g < 240 ∨ p.b < 240
    · have hb : (decide (p.r < 240) || decide (p.g < 240) || decide (p.b < 240)) = true := by
        simp only [Bool.or_eq_true, decide_eq_true_iff]
        tauto
      simp only [scanBlank, hb, if_true, List.mem_cons]
      constructor
      · intro hfalse
        exact absurd hfalse (by simp)
      · intro hall
        exact absurd h (hall p (Or.inl rfl))
    · have hb : (decide (p.r < 240) || decide (p.g < 240) || decide (p.b < 240)) = false := by
        simp only [Bool.or_eq_false_iff, decide_eq_false_iff_not]
        tauto
      simp only [scanBlank, hb, Bool.false_eq_true, if_false, List.mem_cons, ih]
      constructor
      · rintro hall q (rfl | hq)
        · exact h
        · exact hall q hq
      · intro hall q hq
        exact hall q (Or.inr hq)

/-- The channel-wise average of a list of white pixels is white. -/
lemma avgPixels_white {ps : List Pixel} (h : ∀ p ∈ ps, p = white) :
    avgPixels ps = white := by
  by_cases h0 : ps.length = 0
  · simp [avgPixels, h0]
  · have hpos : 0 < ps.length := Nat.pos_of_ne_zero h0
    have hrep := List.eq_replicate_of_mem h
    rw [avgPixels, if_neg h0, hrep]
    simp [List.map_replicate, List.sum_replicate, smul_eq_mul, white,
      Nat.mul_div_cancel_left _ hpos]

/-- Every pixel of the downscale of an all-white surface is white. -/
lemma eq_white_of_mem_downscale_fillWhite {s d w h : Nat} {row : List Pixel} {p : Pixel}
    (hrow : row ∈ downscale s d (fillWhite w h)) (hp : p ∈ row) : p = white := by
  simp only [downscale, List.mem_map] at hrow
  obtain ⟨i, _, rfl⟩ := hrow
  simp only [List.mem_map] at hp
  obtain ⟨j, _, rfl⟩ := hp
  apply avgPixels_white
  intro q hq
  simp only [List.mem_flatten, List.mem_map] at hq
  obtain ⟨sub, ⟨rowSrc, hrowSrc, rfl⟩, hqsub⟩ := hq
  have hmem : rowSrc ∈ fillWhite w h :=
    List.mem_of_mem_drop (List.mem_of_mem_take hrowSrc)
  rw [fillWhite] at hmem
  rw [List.eq_of_mem_replicate hmem] at hqsub
  exact List.eq_of_mem_replicate
    (List.mem_of_mem_drop (List.mem_of_mem_take hqsub))

/-- Normalizing an all-white (freshly cleared) surface yields a null blob
and `isEmpty = true`. -/
lemma getData_fillWhite (w h : Nat) : getData (fillWhite w h) = (none, true) := by
  have hb : scanBlank ((downscale CANVAS_SIZE EXPORT_SIZE (fillWhite w h)).flatten) = true := by
    rw [scanBlank_iff]
    intro p hp
    rw [List.mem_flatten] at hp
    obtain ⟨row, hrow, hp⟩ := hp
    rw [eq_white_of_mem_downscale_fillWhite hrow hp]
    decide
  simp [getData, hb]

/-- `Nat.toDigitsCore` never shrinks a non-empty accumulator to nil. -/
lemma toDigitsCore_ne_nil_aux :
    ∀ (fuel b n : Nat) (ds : List Char), ds ≠ [] → Nat.toDigitsCore b fuel n ds ≠ [] := by
  intro fuel
  induction fuel with
  | zero => intro b n ds h; simpa [Nat.toDigitsCore] using h
  | succ fuel ih =>
    intro b n ds h
    rw [Nat.toDigitsCore]
    split
    · exact List.cons_ne_nil _ _
    · exact ih b _ _ (List.cons_ne_nil _ _)

/-- The decimal digit list of a natural number is never empty. -/
lemma toDigits_ne_nil (b n : Nat) : Nat.toDigits b n ≠ [] := by
  rw [Nat.toDigits, Nat.toDigitsCore]
  split
  · exact List.cons_ne_nil _ _
  · exact toDigitsCore_ne_nil_aux _ _ _ _ (List.cons_ne_nil _ _)

/-- The decimal representation of a natural number is a non-empty string. -/
lemma natRepr_ne_empty (n : Nat) : Nat.repr n ≠ "" := by
  rw [Nat.repr]
  intro h
  exact toDigits_ne_nil 10 n (congrArg String.data h)

/-- The decimal representation of an integer is a non-empty string. -/
lemma intToString_ne_empty (n : Int) : toString n ≠ "" := by
  cases n with
  | ofNat m => exact natRepr_ne_empty m
  | negSucc m =>
    show ("-" ++ toString (m + 1)) ≠ ""
    intro h
    have hlen := congrArg String.length h
    rw [String.length_append] at hlen
    have h1 : ("-" : String).length = 1 := rfl
    have h0 : ("" : String).length = 0 := rfl
    omega

/-- A non-empty string is a truthy JavaScript value. -/
lemma jsTruthy_str_of_ne {s : String} (h : s ≠ "") : jsTruthy (JSVal.str s) = true := by
  simp [jsTruthy, bne_iff_ne, h]

/-- Serializing any object yields a truthy (non-empty) string. -/
lemma jsonStringify_obj_truthy (fields : List (String × JSVal)) :
    jsTruthy (jsonStringify (JSVal.obj fields)) = true := by
  rw [jsonStringify]
  apply jsTruthy_str_of_ne
  intro h
  have hlen := congrArg String.length h
  rw [String.length_append, String.length_append] at hlen
  have h1 : ("\x7b" : String).length = 1 := rfl
  have h2 : ("\x7d" : String).length = 1 := rfl
  have h0 : ("" : String).length = 0 := rfl
  omega

/-- Every branch of the per-digit task stamps the outcome with its own
digit. -/
lemma digitTask_digit (d : Nat) (env : DigitEnv) {o : UploadOutcome}
    (h : (digitTask d env).1 = Except.ok o) : o.digit = d := by
  rcases env with ⟨canvas, client⟩
  cases canvas with
  | none =>
    simp only [digitTask] at h
    cases h
    rfl
  | some surface =>
    rw [digitTask] at h
    dsimp only at h
    split at h
    · cases h
      rfl
    · cases hu : uploadDigit client with
      | error e => rw [hu] at h; simp [Except.map] at h
      | ok r =>
        rw [hu] at h
        simp only [Except.map] at h
        cases h
        rfl

/-- Writing each completing task's result into its own slot of the result
array yields, at every index, the value of that index's task — no matter
in which order the writes happen. -/
lemma promiseAll_getElem {α : Type} (f : Nat → α) :
    ∀ (order : List Nat) (acc : List (Option α)), (∀ d ∈ order, d < acc.length) →
      ∀ i : Nat, (order.foldl (fun a d => a.set d (some (f d))) acc)[i]? =
        if i ∈ order then some (some (f i)) else acc[i]? := by
  intro order
  induction order with
  | nil => intro acc _ i; simp
  | cons d rest ih =>
    intro acc h i
    rw [List.foldl_cons]
    rw [ih (acc.set d (some (f d)))
      (fun x hx => by rw [List.length_set]; exact h x (List.mem_cons_of_mem d hx)) i]
    by_cases hir : i ∈ rest
    · rw [if_pos hir, if_pos (List.mem_cons_of_mem d hir)]
    · rw [if_neg hir]
      by_cases hid : i = d
      · subst hid
        rw [if_pos (List.mem_cons_self i rest)]
        exact List.getElem?_set_self (h i (List.mem_cons_self i rest))
      · rw [List.getElem?_set_ne (fun he => hid he.symm)]
        rw [if_neg (by rw [List.mem_cons]; rintro (he | he); exact hid he; exact hir he)]

/-- The positional gather is independent of the completion order: for any
permutation of 0..n-1 it equals the in-index-order list of task
results. -/
lemma promiseAll_eq_map {α : Type} (n : Nat) (order : List Nat) (f : Nat → α)
    (hperm : List.Perm order (List.range n)) :
    promiseAll n order f = (List.range n).map (fun d => some (f d)) := by
  have hmem : ∀ d ∈ order, d < n := fun d hd => List.mem_range.mp (hperm.mem_iff.mp hd)
  apply List.ext_getElem?
  intro i
  rw [promiseAll, promiseAll_getElem f order (List.replicate n none)
    (by simpa [List.length_replicate] using hmem) i]
  by_cases hi : i < n
  · rw [if_pos (hperm.mem_iff.mpr (List.mem_range.mpr hi))]
    rw [List.getElem?_map, List.getElem?_range hi]
    rfl
  · rw [if_neg (fun hin => hi (hmem i hin))]
    rw [List.getElem?_eq_none (by rw [List.length_replicate]; omega)]
    rw [List.getElem?_eq_none (by rw [List.length_map, List.length_range]; omega)]

/-! ## Claims -/

/-- C2 counterexample: a configuration whose bucket name is still the
placeholder sentinel (URL and key configured) on which `checkConfig`
returns `true`, although the claim requires `false` whenever any of the
three values holds its placeholder. -/
def c2Config : Config :=
  ⟨"https://abcdefgh.supabase.co", "sb-anon-key-1234", BUCKET_PLACEHOLDER⟩

/-- C2 counterexample: `checkConfig` returns `true` on a configuration
whose bucket/container name holds its placeholder sentinel value. -/
theorem checkConfig_ignores_bucket_placeholder :
    c2Config.bucket = BUCKET_PLACEHOLDER ∧ checkConfig c2Config = true :=
  ⟨rfl, by decide⟩

/-- C2 (amended): `checkConfig` returns `false` exactly when the endpoint
URL or the access key holds its placeholder sentinel value; it does not
consult the bucket/container name. -/
theorem checkConfig_false_iff_url_or_key_placeholder (c : Config) :
    checkConfig c = false ↔ (c.url = URL_PLACEHOLDER ∨ c.anonKey = KEY_PLACEHOLDER) := by
  constructor
  · intro hfalse
    by_contra hcon
    push_neg at hcon
    obtain ⟨h1, h2⟩ := hcon
    rw [checkConfig] at hfalse
    simp [bne_iff_ne, h1, h2] at hfalse
  · intro hor
    rw [checkConfig]
    rcases hor with h | h <;> simp [h]

/-- C3 counterexample: a slot mid-stroke (Drawing state, two points on
the current path). -/
def c3Slot : Slot := ⟨[[white]], [⟨0, 0⟩, ⟨1, 1⟩], true, true⟩

/-- C3 counterexample: invoking `startDrawing` on a surface already in
the Drawing state is not a no-op — it begins a new path, so the slot
changes. -/
theorem startDrawing_not_noop_mid_stroke :
    c3Slot.isDrawing = true ∧ startDrawing c3Slot ⟨2, 2⟩ ≠ c3Slot :=
  ⟨rfl, by decide⟩

/-- C3 (amended): `startDrawing` is unguarded: from every state,
including mid-stroke, it enters the Drawing state, marks the surface as
having content, and begins a fresh path at the given point (the rendered
pixels are untouched); the Drawing→Drawing transition on `beginStroke` is
admitted as well. -/
theorem startDrawing_unconditional (s : Slot) (p : Point) :
    (startDrawing s p).isDrawing = true ∧ (startDrawing s p).hasContent = true ∧
      (startDrawing s p).path = [p] ∧ (startDrawing s p).surface = s.surface :=
  ⟨rfl, rfl, rfl, rfl⟩

/-- C7: `getData` classifies the surface as empty exactly when no pixel
of the downscaled raster has any color channel (r, g or b) below the
fixed threshold 240. -/
theorem isEmpty_iff_no_channel_below_threshold (surface : Raster) :
    (getData surface).2 = true ↔
      ∀ p ∈ (downscale CANVAS_SIZE EXPORT_SIZE surface).flatten,
        ¬(p.r < 240 ∨ p.g < 240 ∨ p.b < 240) := by
  rw [← scanBlank_iff]
  by_cases hs : scanBlank ((downscale CANVAS_SIZE EXPORT_SIZE surface).flatten) = true
  · simp [getData, hs]
  · simp only [Bool.not_eq_true] at hs
    simp [getData, hs]

/-- C8: clearing any digit slot (which refills the surface with solid
white) and then normalizing it yields `isEmpty = true` and a null blob
payload. -/
theorem clear_then_getData_isEmpty (slots : Fin 10 → Slot) (d : Fin 10) :
    getData ((clear (slots d)).surface) = (none, true) :=
  getData_fillWhite CANVAS_SIZE CANVAS_SIZE

/-- C9: `clear` is idempotent on a digit slot: clearing twice leaves the
slot in exactly the state clearing once does. -/
theorem clear_idempotent (s : Slot) : clear (clear s) = clear s := rfl

/-- C1 failing input: digit 3 with a drawn (non-blank) surface and an
Upload Client that fails with the raw non-object error value
"network down". -/
def c1Env : DigitEnv :=
  ⟨some [[⟨0, 0, 0, 255⟩]], ClientBehavior.returns (JSVal.str "network down")⟩

/-- C1: at the failing input the batch does not crash and the outcome has
`success: false`, and the human-readable text "network down" is correctly
extracted — but it is attached under the `error` key of `uploadDigit`'s
result, so the spread outcome's declared `message` field (which the
status UI renders) is absent. -/
theorem uploadError_outcome_lacks_message_field :
    (digitTask 3 c1Env).1 =
      Except.ok ⟨3, false, false, none, some (JSVal.str "network down")⟩ := by
  rfl

/-- C5: a digit slot whose normalize step classifies the surface as empty
(or whose encoder yields a null blob payload) produces the outcome
`{digit, success: true, skipped: true}` and never invokes the Upload
Client (invocation flag `false`). -/
theorem empty_slot_skipped_no_upload (d : Nat) (surface : Raster) (cb : ClientBehavior)
    (h : (getData surface).2 = true ∨ (getData surface).1 = none) :
    digitTask d ⟨some surface, cb⟩ = (Except.ok ⟨d, true, true, none, none⟩, false) := by
  have hcond : ((getData surface).2 || (getData surface).1.isNone) = true := by
    rcases h with h | h <;> simp [h]
  simp [digitTask, hcond]

/-- C5 witness: a freshly cleared (all-white) surface is classified empty
and its digit task is skipped without contacting the Upload Client. -/
theorem empty_slot_skipped_no_upload_witness :
    ((getData (fillWhite CANVAS_SIZE CANVAS_SIZE)).2 = true ∨
      (getData (fillWhite CANVAS_SIZE CANVAS_SIZE)).1 = none) ∧
    digitTask 4 ⟨some (fillWhite CANVAS_SIZE CANVAS_SIZE), ClientBehavior.returns JSVal.null⟩ =
      (Except.ok ⟨4, true, true, none, none⟩, false) :=
  ⟨Or.inl (by rw [getData_fillWhite]),
   empty_slot_skipped_no_upload 4 _ _ (Or.inl (by rw [getData_fillWhite]))⟩

/-- C6: when the memoized configuration check fails, `handleSubmit`
aborts before any per-digit work: it surfaces exactly the single global
configuration error, produces zero per-digit outcomes, and the Upload
Client is never contacted (empty invocation list). -/
theorem invalid_config_aborts_batch (c : Config) (envs : Nat → DigitEnv)
    (h : checkConfig c = false) :
    handleSubmit (checkConfig c) envs =
      (BatchResult.configError "Please configure Supabase keys in constants.ts first.", []) := by
  rw [h]
  rfl

/-- C6 full-placeholder configuration for the witness. -/
def placeholderConfig : Config := ⟨URL_PLACEHOLDER, KEY_PLACEHOLDER, BUCKET_PLACEHOLDER⟩

/-- C6 witness: with the placeholder configuration the batch aborts with
the single global error, no outcomes and no upload calls. -/
theorem invalid_config_aborts_batch_witness :
    checkConfig placeholderConfig = false ∧
    handleSubmit (checkConfig placeholderConfig)
        (fun _ => ⟨none, ClientBehavior.returns JSVal.null⟩) =
      (BatchResult.configError "Please configure Supabase keys in constants.ts first.", []) :=
  ⟨by decide, invalid_config_aborts_batch placeholderConfig _ (by decide)⟩

/-- C4: with valid configuration and every per-digit task fulfilling,
`handleSubmit` returns exactly 10 outcomes collected positionally: the
i-th outcome is digit i's own task result and carries digit i, and the
positional gather of the concurrently completing tasks is the same list
for every completion order (any permutation of 0–9). -/
theorem submitAll_ten_outcomes_in_digit_order
    (envs : Nat → DigitEnv) (order : List Nat)
    (hperm : List.Perm order (List.range 10))
    (hok : ∀ d, d < 10 → ∃ o, (digitTask d (envs d)).1 = Except.ok o) :
    ∃ outs : List UploadOutcome,
      (handleSubmit true envs).1 = BatchResult.ok outs ∧
      outs.length = 10 ∧
      (∀ i (h : i < outs.length), (digitTask i (envs i)).1 = Except.ok (outs.get ⟨i, h⟩)) ∧
      (∀ i (h : i < outs.length), (outs.get ⟨i, h⟩).digit = i) ∧
      promiseAll 10 order (fun d => (digitTask d (envs d)).1) =
        (List.range 10).map (fun d => some ((digitTask d (envs d)).1)) := by
  obtain ⟨o0, h0⟩ := hok 0 (by omega)
  obtain ⟨o1, h1⟩ := hok 1 (by omega)
  obtain ⟨o2, h2⟩ := hok 2 (by omega)
  obtain ⟨o3, h3⟩ := hok 3 (by omega)
  obtain ⟨o4, h4⟩ := hok 4 (by omega)
  obtain ⟨o5, h5⟩ := hok 5 (by omega)
  obtain ⟨o6, h6⟩ := hok 6 (by omega)
  obtain ⟨o7, h7⟩ := hok 7 (by omega)
  obtain ⟨o8, h8⟩ := hok 8 (by omega)
  obtain ⟨o9, h9⟩ := hok 9 (by omega)
  refine ⟨[o0, o1, o2, o3, o4, o5, o6, o7, o8, o9], ?_, rfl, ?_, ?_,
    promiseAll_eq_map 10 order _ hperm⟩
  · have hcoll : collectAll
        ((DIGITS.map (fun d => digitTask d (envs d))).map Prod.fst) =
        Except.ok [o0, o1, o2, o3, o4, o5, o6, o7, o8, o9] := by
      simp only [DIGITS, List.map_cons, List.map_nil]
      rw [show (digitTask 0 (envs 0)).fst = Except.ok o0 from h0,
        show (digitTask 1 (envs 1)).fst = Except.ok o1 from h1,
        show (digitTask 2 (envs 2)).fst = Except.ok o2 from h2,
        show (digitTask 3 (envs 3)).fst = Except.ok o3 from h3,
        show (digitTask 4 (envs 4)).fst = Except.ok o4 from h4,
        show (digitTask 5 (envs 5)).fst = Except.ok o5 from h5,
        show (digitTask 6 (envs 6)).fst = Except.ok o6 from h6,
        show (digitTask 7 (envs 7)).fst = Except.ok o7 from h7,
        show (digitTask 8 (envs 8)).fst = Except.ok o8 from h8,
        show (digitTask 9 (envs 9)).fst = Except.ok o9 from h9]
      simp [collectAll, Except.map]
    simp only [handleSubmit, Bool.not_true, Bool.false_eq_true, if_false]
    rw [hcoll]
  · intro i h
    simp only [List.length_cons, List.length_nil] at h
    interval_cases i <;>
      simpa using (by assumption : (digitTask _ (envs _)).1 = Except.ok _)
  · intro i h
    simp only [List.length_cons, List.length_nil] at h
    interval_cases i
    · exact digitTask_digit 0 (envs 0) h0
    · exact digitTask_digit 1 (envs 1) h1
    · exact digitTask_digit 2 (envs 2) h2
    · exact digitTask_digit 3 (envs 3) h3
    · exact digitTask_digit 4 (envs 4) h4
    · exact digitTask_digit 5 (envs 5) h5
    · exact digitTask_digit 6 (envs 6) h6
    · exact digitTask_digit 7 (envs 7) h7
    · exact digitTask_digit 8 (envs 8) h8
    · exact digitTask_digit 9 (envs 9) h9

/-- C4 witness environments: every canvas handle is null, so each task
fulfills with the "Canvas not initialized" outcome without any upload. -/
def c4Envs : Nat → DigitEnv := fun _ => ⟨none, ClientBehavior.returns JSVal.null⟩

/-- C4 witness: a reversed completion order (digit 9 finishes first)
still yields the 10 outcomes in digit order. -/
theorem submitAll_ten_outcomes_in_digit_order_witness :
    List.Perm [9, 8, 7, 6, 5, 4, 3, 2, 1, 0] (List.range 10) ∧
    (∀ d, d < 10 → ∃ o, (digitTask d (c4Envs d)).1 = Except.ok o) ∧
    ∃ outs : List UploadOutcome,
      (handleSubmit true c4Envs).1 = BatchResult.ok outs ∧
      outs.length = 10 ∧
      (∀ i (h : i < outs.length), (digitTask i (c4Envs i)).1 = Except.ok (outs.get ⟨i, h⟩)) ∧
      (∀ i (h : i < outs.length), (outs.get ⟨i, h⟩).digit = i) ∧
      promiseAll 10 [9, 8, 7, 6, 5, 4, 3, 2, 1, 0] (fun d => (digitTask d (c4Envs d)).1) =
        (List.range 10).map (fun d => some ((digitTask d (c4Envs d)).1)) :=
  ⟨by decide,
   fun d _ => ⟨⟨d, false, false, some (JSVal.str "Canvas not initialized"), none⟩, rfl⟩,
   submitAll_ten_outcomes_in_digit_order c4Envs [9, 8, 7, 6, 5, 4, 3, 2, 1, 0]
     (by decide)
     (fun d _ => ⟨⟨d, false, false, some (JSVal.str "Canvas not initialized"), none⟩, rfl⟩)⟩

/-- C10 counterexample: two concrete failure inputs refuting the claim as
stated: a thrown `null` makes the `err.message` read inside the catch
block itself throw a TypeError, so `uploadDigit` rejects instead of
resolving; and a thrown object whose `message` field is the truthy
number 42 resolves with `error` holding that number — not a non-empty
string. -/
theorem uploadDigit_not_total_over_failure_modes :
    uploadDigit (ClientBehavior.throws JSVal.null) = Except.error "TypeError" ∧
    uploadDigit (ClientBehavior.throws (JSVal.obj [("message", JSVal.num 42)])) =
      Except.ok ⟨false, some (JSVal.num 42)⟩ :=
  ⟨rfl, rfl⟩

/-- C10 (amended): `uploadDigit` is total over its failure modes except
for nullish thrown values: for every returned (truthy) error value and
every non-nullish thrown value — object, string, number or boolean — it
resolves, never rejecting, to `success: false` with a truthy displayable
extracted message, which is a non-empty string except that a truthy
non-string `message` field on the error value is passed through as-is; a
thrown `null` or `undefined` instead makes the catch block's own
`err.message` read throw, rejecting the promise. -/
theorem uploadDigit_total_on_failure (resp : ClientBehavior)
    (h : match resp with
      | ClientBehavior.returns e => jsTruthy e = true
      | ClientBehavior.throws err => err ≠ JSVal.null ∧ err ≠ JSVal.undef) :
    ∃ m, uploadDigit resp = Except.ok ⟨false, some m⟩ ∧ jsTruthy m = true ∧
      ((∃ s, m = JSVal.str s) ∨ m = member (respError resp) "message") := by
  cases resp with
  | returns e =>
    have he : jsTruthy e = true := h
    by_cases hm : jsTruthy (member e "message") = true
    · exact ⟨member e "message", by simp [uploadDigit, he, hm], hm, Or.inr rfl⟩
    · have hm' : jsTruthy (member e "message") = false := by simpa using hm
      cases e with
      | undef => simp [jsTruthy] at he
      | null => simp [jsTruthy] at he
      | bool b =>
        cases b
        · simp [jsTruthy] at he
        · exact ⟨JSVal.str "true", rfl, rfl, Or.inl ⟨"true", rfl⟩⟩
      | num n =>
        have ht : jsTruthy (JSVal.str (toString n)) = true :=
          jsTruthy_str_of_ne (intToString_ne_empty n)
        refine ⟨JSVal.str (toString n), ?_, ht, Or.inl ⟨toString n, rfl⟩⟩
        simp [uploadDigit, he, hm', typeofIsObject, jsToString, ht]
      | str s =>
        refine ⟨JSVal.str s, ?_, he, Or.inl ⟨s, rfl⟩⟩
        simp [uploadDigit, he, hm', typeofIsObject, jsToString]
      | obj fields =>
        have ht := jsonStringify_obj_truthy fields
        refine ⟨jsonStringify (JSVal.obj fields), ?_, ht, Or.inl ⟨_, by rw [jsonStringify]⟩⟩
        simp [uploadDigit, he, hm', typeofIsObject, ht]
  | throws err =>
    obtain ⟨h1, h2⟩ := h
    cases err with
    | undef => exact absurd rfl h2
    | null => exact absurd rfl h1
    | bool b =>
      cases b
      · exact ⟨JSVal.str "false", rfl, rfl, Or.inl ⟨"false", rfl⟩⟩
      · exact ⟨JSVal.str "true", rfl, rfl, Or.inl ⟨"true", rfl⟩⟩
    | num n =>
      have ht : jsTruthy (JSVal.str (toString n)) = true :=
        jsTruthy_str_of_ne (intToString_ne_empty n)
      refine ⟨JSVal.str (toString n), ?_, ht, Or.inl ⟨toString n, rfl⟩⟩
      simp only [uploadDigit, getMember, member, jsTruthy, typeofIsString, jsonStringify, ht]
      simp
      intro hemp
      exact absurd hemp (intToString_ne_empty n)
    | str s =>
      by_cases hs : s = ""
      · subst hs
        exact ⟨JSVal.str "Unknown error", rfl, rfl, Or.inl ⟨"Unknown error", rfl⟩⟩
      · have ht : jsTruthy (JSVal.str s) = true := jsTruthy_str_of_ne hs
        refine ⟨JSVal.str s, ?_, ht, Or.inl ⟨s, rfl⟩⟩
        simp [uploadDigit, getMember, member, jsTruthy, typeofIsString, ht]
        intro hemp
        exact absurd hemp hs
    | obj fields =>
      by_cases hm : jsTruthy (member (JSVal.obj fields) "message") = true
      · exact ⟨member (JSVal.obj fields) "message",
          by simp [uploadDigit, getMember, hm], hm, Or.inr rfl⟩
      · have hm' : jsTruthy (member (JSVal.obj fields) "message") = false := by
          simpa using hm
        have ht := jsonStringify_obj_truthy fields
        refine ⟨jsonStringify (JSVal.obj fields), ?_, ht, Or.inl ⟨_, by rw [jsonStringify]⟩⟩
        simp [uploadDigit, getMember, typeofIsString, hm', ht]

/-- C10 witness: a returned raw-string error "network down" is a truthy
failure value, and `uploadDigit` resolves with that exact non-empty
string and no rejection. -/
theorem uploadDigit_total_on_failure_witness :
    jsTruthy (JSVal.str "network down") = true ∧
    ∃ m, uploadDigit (ClientBehavior.returns (JSVal.str "network down")) =
        Except.ok ⟨false, some m⟩ ∧ jsTruthy m = true ∧
      ((∃ s, m = JSVal.str s) ∨
        m = member (respError (ClientBehavior.returns (JSVal.str "network down"))) "message") :=
  ⟨by decide,
   uploadDigit_total_on_failure (ClientBehavior.returns (JSVal.str "network down")) (by decide)⟩

end DigitCollector
